import Mathlib

/-!
Verification of the certificate-processing pipeline (ocr_nlp_poc).

Shallow embedding of the Python source under `src/`:
* pure helpers (name validation, hour parsing, hour calculation) become Lean
  functions over `String` / `List Char`,
* the database is an explicit record of row lists; SQLAlchemy sessions become
  state passing, with `get_db_session`'s commit-on-success / rollback-on-raise
  discipline made explicit in each worker's outcome,
* external collaborators (S3, Kafka, the LLM) are oracles passed as arguments,
* Python call semantics for keyword arguments are modelled explicitly: a call
  passing a keyword argument that the callee does not declare raises TypeError
  before the callee body runs (`kwargsAccepted` below).

Machine integers are `Nat`/`Int` (Python ints are unbounded); the single float
computation (`output_hours / input_quantity` in `_calculate_hours`) is modelled
as an exact rational, so `int(n * ratio)` is integer T-division (`pyIntMulDiv`).
The embedding restricts text to the ASCII fragment: Python's `\w`, `\d`, `\s`
classes are modelled by their ASCII parts.
-/

/-! ## Python string primitives -/

/-- ASCII fragment of Python's regex class `\w` (word character). -/
def isWordChar (c : Char) : Bool := c.isAlphanum || c = '_'

/-- ASCII fragment of Python's regex class `\s` (whitespace). -/
def isSpaceChar (c : Char) : Bool :=
  c = ' ' || c = '\t' || c = '\n' || c = '\r' || c = '\x0b' || c = '\x0c'

/-- Python `str.strip()`: drop leading and trailing whitespace. -/
def pyStrip (s : String) : String :=
  String.mk (((s.toList.dropWhile isSpaceChar).reverse.dropWhile isSpaceChar).reverse)

/-- Python `str.lower()` (ASCII fragment). -/
def pyLower (s : String) : String := String.mk (s.toList.map Char.toLower)

/-- Python `int(a / b * c)` for exact arithmetic: the float ratio is modelled
as an exact rational, and `int(...)` truncates toward zero, which on the
exact quotient `a·c / b` is integer T-division. (`Int.div 0` is 0, as is the
exact-rational quotient by zero.) -/
def pyIntMulDiv (c a b : Int) : Int := Int.tdiv (c * a) b

/-! ## Name normalization and participant validation
(`src/consumers/certificate_ocr_consumer.py`, `_validate_participant_name`,
lines 92-142). -/

/-- Whitespace tokenizer: the maximal non-whitespace runs, left to right
(`acc` holds the token currently being read, reversed). -/
def tokensAux : List Char → List Char → List (List Char)
  | [], acc => if acc = [] then [] else [acc.reverse]
  | c :: cs, acc =>
    if isSpaceChar c then
      if acc = [] then tokensAux cs []
      else acc.reverse :: tokensAux cs []
    else tokensAux cs (c :: acc)

/-- Python `str.split()` with no argument: whitespace-separated tokens,
no empty tokens. -/
def pyTokens (s : String) : List String :=
  (tokensAux s.toList []).map (fun t => String.mk t)

/-- Embeds `normalize_name` from `_validate_participant_name`:
lower-case, drop every character that is neither `\w` nor `\s`
(`re.sub(r'[^\w\s]', '', name.lower())`), collapse whitespace runs to a single
space and strip (`re.sub(r'\s+', ' ', ...).strip()` — equivalently, the
whitespace tokens rejoined by single spaces). -/
def normalize_name (name : String) : String :=
  let lowered := pyLower name
  let noPunct := String.mk (lowered.toList.filter (fun c => isWordChar c || isSpaceChar c))
  String.intercalate " " (pyTokens noPunct)

/-- Intersection of the token sets of two normalized names: Python builds
`set(a.split()) & set(b.split())`; a set of strings is modelled as a
duplicate-free list, so the intersection is the deduplicated token list of the
first name filtered by membership in the second. -/
def commonNameParts (a b : String) : List String :=
  (pyTokens a).dedup.filter (fun t => t ∈ pyTokens b)

/-- Embeds `_validate_participant_name` (source lines 92-142): reject when either
input is falsy; accept on normalized equality, on a token intersection of
size at least 2, or on a singleton intersection whose token is longer
than 3 characters (`list(common_parts)[0]`). -/
def validate_participant_name (extracted_participant student_name : String) : Bool :=
  if extracted_participant = "" || student_name = "" then
    false
  else
    let extracted_normalized := normalize_name extracted_participant
    let student_normalized := normalize_name student_name
    if extracted_normalized = student_normalized then
      true
    else
      let common_parts := commonNameParts extracted_normalized student_normalized
      if 2 ≤ common_parts.length then
        true
      else if common_parts.length = 1 then
        common_parts.any (fun t => decide (3 < t.length))
      else
        false

/-- The matching rule exactly as the specification words it (§4.4 step 5):
both names non-empty, and after normalization either the strings are equal,
or the token sets share at least two tokens, or they share exactly one token
of length greater than 3. Token sets are genuine `Finset`s here. -/
def specNameMatch (extracted student : String) : Prop :=
  extracted ≠ "" ∧ student ≠ "" ∧
    (normalize_name extracted = normalize_name student ∨
      2 ≤ ((pyTokens (normalize_name extracted)).toFinset ∩
            (pyTokens (normalize_name student)).toFinset).card ∨
      (((pyTokens (normalize_name extracted)).toFinset ∩
          (pyTokens (normalize_name student)).toFinset).card = 1 ∧
        ∃ t ∈ (pyTokens (normalize_name extracted)).toFinset ∩
              (pyTokens (normalize_name student)).toFinset,
          3 < t.length))

/-! ## Stage-2 numeric-hours parser
(`src/consumers/certificate_ocr_consumer.py`, `_extract_numeric_hours`,
lines 80-90): `re.findall(r'\d+', text)` and take the first run. -/

/-- Decimal value of a run of digits. -/
def digitRunVal (ds : List Char) : Nat :=
  ds.foldl (fun acc c => 10 * acc + (c.toNat - 48)) 0

/-- Embeds `re.findall(r'\d+', s)`: the maximal runs of digits, left to right.
`acc` holds the digits of the run currently being read, reversed. -/
def digitRunsAux : List Char → List Char → List (List Char)
  | [], acc => if acc = [] then [] else [acc.reverse]
  | c :: cs, acc =>
    if c.isDigit then digitRunsAux cs (c :: acc)
    else if acc = [] then digitRunsAux cs []
    else acc.reverse :: digitRunsAux cs []

def pyFindallDigitRuns (s : String) : List (List Char) := digitRunsAux s.toList []

/-- Stage-2 `_extract_numeric_hours`: `None` on a falsy argument, else the
integer value of the first digit run found by `re.findall(r'\d+', ...)`,
`None` when there is none. -/
def ocrExtractNumericHours (hoursText : String) : Option Nat :=
  if hoursText = "" then none
  else
    match pyFindallDigitRuns hoursText with
    | [] => none
    | r :: _ => some (digitRunVal r)

/-- The caller passes `metadata_result.get('carga_horaria')`, which may be
missing; `if not hours_text` then also returns `None`. -/
def ocrExtractNumericHoursOpt (hoursText : Option String) : Option Nat :=
  match hoursText with
  | none => none
  | some s => ocrExtractNumericHours s

/-- Spec-side parser (§4.4 step 3, worded independently of the source): the
first contiguous run of ASCII digits, read as a decimal integer; null when
there is no digit. -/
def specFirstDigitRun (s : String) : List Char :=
  (s.toList.dropWhile (fun c => !c.isDigit)).takeWhile (fun c => c.isDigit)

def specNumericHours (s : String) : Option Nat :=
  if specFirstDigitRun s = [] then none else some (digitRunVal (specFirstDigitRun s))

/-! ## Stage-3 pattern-based parsers
(`src/services/activity_categorization_service.py`).

Every pattern used there has the shape `(\d+)\s*LIT` for a literal `LIT`
(`(\d+)(?:\s*|$)` behaves as `LIT` empty, since `\s*` matches the empty
string). `re.search` semantics: leftmost match position, the digit group
greedy (longest digit prefix first, backtracking through shorter prefixes
and through the `\s*` gap). -/

/-- Can `LIT` be matched after skipping zero or more whitespace characters?
(the `\s*LIT` tail of the pattern, with backtracking). -/
def litAfterSpaces (lit : List Char) : List Char → Bool
  | [] => lit.isEmpty
  | c :: cs =>
    if lit.isPrefixOf (c :: cs) then true
    else if isSpaceChar c then litAfterSpaces lit cs
    else false

/-- Greedy digit group: try the `k` longest digit prefixes of the run starting
here, longest first; the group value is the first prefix after which
`\s*LIT` matches. -/
def greedyDigits (lit : List Char) (cs : List Char) : Nat → Option Nat
  | 0 => none
  | k + 1 =>
    if litAfterSpaces lit (cs.drop (k + 1)) then
      some (digitRunVal (cs.take (k + 1)))
    else
      greedyDigits lit cs k

/-- Try to match `(\d+)\s*LIT` anchored at the head of `cs`. -/
def tryPatternAt (lit : List Char) (cs : List Char) : Option Nat :=
  let run := cs.takeWhile (fun c => c.isDigit)
  if run = [] then none else greedyDigits lit cs run.length

/-- Embeds `re.search(r'(\d+)\s*LIT', text)`: scan positions left to right. -/
def searchPattern (lit : List Char) : List Char → Option Nat
  | [] => none
  | c :: cs =>
    match tryPatternAt lit (c :: cs) with
    | some v => some v
    | none => searchPattern lit cs

def searchPatternStr (lit : String) (text : String) : Option Nat :=
  searchPattern lit.toList text.toList

/-- Stage-3 `_extract_numeric_hours` (service lines 276-307): patterns
`(\d+)\s*h`, `(\d+)\s*hora`, `(\d+)\s*hr`, `(\d+)(?:\s*|$)` tried in order
over `carga_horaria.lower().strip()`; `None` on a falsy argument or when no
pattern matches. -/
def svcExtractNumericHours (carga_horaria : String) : Option Nat :=
  if carga_horaria = "" then none
  else
    let carga_lower := pyStrip (pyLower carga_horaria)
    match searchPatternStr "h" carga_lower with
    | some v => some v
    | none =>
      match searchPatternStr "hora" carga_lower with
      | some v => some v
      | none =>
        match searchPatternStr "hr" carga_lower with
        | some v => some v
        | none => searchPatternStr "" carga_lower

/-! ## Extracted data and categories -/

/-- The `extracted_data` dictionary carried by a `certificate.metadata`
message: the five LLM fields plus the `raw_text` attached by the consumer.
A `none` field models an absent key (a `dict.get` default then applies). -/
structure ExtractedData where
  nome_participante : Option String := none
  evento : Option String := none
  «local» : Option String := none
  data : Option String := none
  carga_horaria : Option String := none
  raw_text : Option String := none
  deriving Repr, DecidableEq

/-- One `activity_categories` row as the categorization service sees it
(`get_categories_dict`); numeric columns are Python ints. The nullable
columns are modelled by their values in the seeded catalog (integers). -/
structure CategoryData where
  id : Int
  name : String := ""
  description : String := ""
  calculation_type : String
  hours_awarded : Int := 0
  input_unit : String := ""
  input_quantity : Int := 1
  output_hours : Int := 0
  max_total_hours : Int
  deriving Repr, DecidableEq

/-- Embeds `_extract_days_from_data` (service lines 227-249): first field among
`evento`, `data`, `carga_horaria` that is non-empty and matches
`(\d+)\s*dias?` or `(\d+)\s*days?` on its lower-cased text. -/
def daysFromText (t : String) : Option Nat :=
  match searchPatternStr "dia" (pyLower t) with
  | some v => some v
  | none => searchPatternStr "day" (pyLower t)

def firstFieldMatch (f : String → Option Nat) : List String → Option Nat
  | [] => none
  | t :: ts =>
    if t = "" then firstFieldMatch f ts
    else
      match f t with
      | some v => some v
      | none => firstFieldMatch f ts

def extract_days_from_data (ed : ExtractedData) : Option Nat :=
  firstFieldMatch daysFromText
    [ed.evento.getD "", ed.data.getD "", ed.carga_horaria.getD ""]

/-- Embeds `_extract_pages_from_data` (service lines 251-274): fields `evento`,
`carga_horaria`; patterns `(\d+)\s*páginas?`, `(\d+)\s*pages?`,
`(\d+)\s*p\.`, `(\d+)\s*pgs?`. -/
def pagesFromText (t : String) : Option Nat :=
  match searchPatternStr "página" (pyLower t) with
  | some v => some v
  | none =>
    match searchPatternStr "page" (pyLower t) with
    | some v => some v
    | none =>
      match searchPatternStr "p." (pyLower t) with
      | some v => some v
      | none => searchPatternStr "pg" (pyLower t)

def extract_pages_from_data (ed : ExtractedData) : Option Nat :=
  firstFieldMatch pagesFromText [ed.evento.getD "", ed.carga_horaria.getD ""]

/-- Embeds `_calculate_hours` (service lines 174-225). The float ratio
`output_hours / input_quantity` is modelled exactly in `ℚ`; `int(...)`
is truncation toward zero (`pyInt`). Note that the two `fixed_*` branches
return `hours_awarded` without comparing it to `max_total_hours`, while the
three `ratio_*` branches clamp with `min`; Python `if days:` / `if pages:`
treats an extracted `0` as falsy, taking the fallback branch. -/
def calculate_hours (category_data : CategoryData) (numeric_hours : Nat)
    (extracted_data : ExtractedData) : Int :=
  if category_data.calculation_type = "fixed_per_semester" then
    category_data.hours_awarded
  else if category_data.calculation_type = "fixed_per_activity" then
    category_data.hours_awarded
  else if category_data.calculation_type = "ratio_hours" then
    -- ratio = output_hours / input_quantity; calculated = int(numeric_hours * ratio)
    let calculated := pyIntMulDiv (numeric_hours : Int)
      category_data.output_hours category_data.input_quantity
    min calculated category_data.max_total_hours
  else if category_data.calculation_type = "ratio_days" then
    match extract_days_from_data extracted_data with
    | some days =>
      if days = 0 then
        min category_data.output_hours category_data.max_total_hours
      else
        min ((days : Int) * category_data.output_hours) category_data.max_total_hours
    | none => min category_data.output_hours category_data.max_total_hours
  else if category_data.calculation_type = "ratio_pages" then
    match extract_pages_from_data extracted_data with
    | some pages =>
      if pages = 0 then
        min category_data.output_hours category_data.max_total_hours
      else
        min (pyIntMulDiv (pages : Int) category_data.output_hours
          category_data.input_quantity) category_data.max_total_hours
    | none => min category_data.output_hours category_data.max_total_hours
  else
    0

/-! ## Data model (src/models) -/

/-- A `students` row (`src/models/student.py`). -/
structure StudentRow where
  id : Nat
  enrollment_number : String
  name : String
  email : Option String := none
  total_approved_hours : Int := 0
  deriving Repr, DecidableEq

/-- A `certificate_submissions` row (`src/models/certificate_submission.py`).
Timestamps are abstract ticks (`Nat`); a `none` timestamp is SQL NULL. -/
structure SubmissionRow where
  id : Nat
  student_id : Nat
  original_filename : String := ""
  s3_key : String := ""
  file_checksum : String := ""
  file_size : Nat := 0
  mime_type : String := ""
  status : String := "uploaded"
  error_message : Option String := none
  submitted_at : Nat := 0
  processing_started_at : Option Nat := none
  processing_completed_at : Option Nat := none
  deriving Repr, DecidableEq

/-- A `certificate_ocr_texts` row (1:1 with a submission). -/
structure OcrTextRow where
  id : Nat
  submission_id : Nat
  raw_text : String := ""
  deriving Repr, DecidableEq

/-- A `certificate_metadata` row (`src/models/certificate_metadata.py`),
the columns written by `create_metadata`. -/
structure MetadataRow where
  id : Nat
  submission_id : Nat
  participant_name : Option String := none
  event_name : Option String := none
  location : Option String := none
  event_date : Option String := none
  original_hours : Option String := none
  numeric_hours : Option Nat := none
  extraction_method : String := "llm"
  deriving Repr, DecidableEq

/-- An `extracted_activities` row (`src/models/extracted_activity.py`),
the columns the claims touch. -/
structure ActivityRow where
  id : Nat
  submission_id : Nat
  participant_name : Option String := none
  event_name : Option String := none
  location : Option String := none
  event_date : Option String := none
  original_hours : Option String := none
  numeric_hours : Option Nat := none
  category_id : Int := 0
  calculated_hours : Int := 0
  llm_reasoning : Option String := none
  raw_text : Option String := none
  review_status : String := "pending_review"
  coordinator_id : Option String := none
  reviewed_at : Option Nat := none
  override_category_id : Option Int := none
  override_hours : Option Int := none
  override_reasoning : Option String := none
  final_category_id : Option Int := none
  final_hours : Option Int := none
  deriving Repr, DecidableEq

/-- The relational store. -/
structure DB where
  students : List StudentRow := []
  submissions : List SubmissionRow := []
  ocrTexts : List OcrTextRow := []
  metadataRows : List MetadataRow := []
  activities : List ActivityRow := []
  categories : List CategoryData := []
  deriving Repr, DecidableEq

/-! ## Repository operations (src/repositories) -/

/-- Embeds `CertificateSubmissionRepository.update_status` applied to one row
(source lines 118-145): the status is always set; the error message only when
the argument is truthy (non-`None`, non-empty). `processing_completed_at` is
never touched — the function has no parameter for it. -/
def applyStatus (status : String) (error_message : Option String)
    (s : SubmissionRow) : SubmissionRow :=
  { s with
    status := status
    error_message :=
      match error_message with
      | some m => if m = "" then s.error_message else some m
      | none => s.error_message }

/-- Embeds `update_status(session, submission_id, status, error_message=None)`:
look the row up by id and mutate it; a missing row is left alone. -/
def update_status (db : DB) (submission_id : Nat) (status : String)
    (error_message : Option String := none) : DB :=
  { db with
    submissions := db.submissions.map fun s =>
      if s.id = submission_id then applyStatus status error_message s else s }

/-- The keyword parameters `update_status` declares. -/
def update_status_params : List String :=
  ["session", "submission_id", "status", "error_message"]

/-- Python call semantics: a keyword argument outside the callee's parameter
list raises `TypeError` before the body runs. -/
def kwargsAccepted (params kwargs : List String) : Bool :=
  kwargs.all (fun k => params.contains k)

/-- Keywords of the consumers' failure-path call
`update_status(session, id, 'failed', msg, update_processing_completed=True)`. -/
def consumerFailureKwargs : List String :=
  ["session", "submission_id", "status", "error_message", "update_processing_completed"]

/-- Keywords of the metadata consumer's success-path call
`update_status(session, id, 'pending_review', update_processing_completed=True)`. -/
def consumerSuccessKwargs : List String :=
  ["session", "submission_id", "status", "update_processing_completed"]

/-- Rendering of `str(e)` for the `TypeError` the unexpected keyword raises (the exact
CPython rendering is immaterial; only non-emptiness and inequality with other
messages matter). -/
def kwargTypeErrorMsg : String :=
  "update_status() got an unexpected keyword argument update_processing_completed"

/-- Embeds `get_by_checksum` (repository lines 62-84): first row with the given
`student_id` and `file_checksum`. -/
def get_by_checksum (submissions : List SubmissionRow) (student_id : Nat)
    (file_checksum : String) : Option SubmissionRow :=
  submissions.find? fun s =>
    s.student_id = student_id && s.file_checksum = file_checksum

/-! ## Activity categorization service
(`src/services/activity_categorization_service.py`). -/

/-- The parsed reply of the categorization LLM call, an oracle:
`response.get('category_id')` and `response.get('reasoning', ...)`. -/
structure LLMCatResponse where
  category_id : Option Int := none
  reasoning : Option String := none
  deriving Repr, DecidableEq

/-- Result dictionary of `categorize_activity` (the keys the pipeline reads). -/
structure CategorizationResult where
  success : Bool
  error : Option String := none
  category_id : Option Int := none
  calculated_hours : Int := 0
  deriving Repr, DecidableEq

/-- Embeds `_create_error_result` (service lines 356-375). -/
def create_error_result (error_message : String) : CategorizationResult :=
  { success := false, error := some error_message, category_id := none, calculated_hours := 0 }

/-- Outcome of `categorize_activity`: the returned dictionary, whether the
LLM was invoked, and the `ExtractedActivity` persisted by
`_save_extracted_activity` (committed in its own session) if any. -/
structure CategorizeOutcome where
  result : CategorizationResult
  llmInvoked : Bool
  savedActivity : Option ActivityRow
  deriving Repr, DecidableEq

/-- Embeds `_categorize_with_llm` (service lines 83-123): accept the reply's
`category_id` only when it is truthy (Python: `if category_id and category_id
in categories_dict`, so `0` is rejected) and present in the catalog. -/
def categorize_with_llm (catalog : List CategoryData) (llm : LLMCatResponse) :
    Option CategoryData × String :=
  let reasoning := llm.reasoning.getD "No reasoning provided"
  match llm.category_id with
  | some cid =>
    if cid ≠ 0 then
      match catalog.find? (fun c => c.id = cid) with
      | some category_data => (some category_data, reasoning)
      | none => (none, "Category ID not found")
    else (none, reasoning)
  | none => (none, reasoning)

/-- Embeds `_save_extracted_activity` (service lines 309-354): the row written with
`review_status = 'pending_review'`; falsy reasoning / raw_text become NULL. -/
def save_extracted_activity (ed : ExtractedData) (category_data : CategoryData)
    (numeric_hours : Nat) (calculated_hours : Int) (llm_reasoning : String)
    (submission_id : Nat) (newActivityId : Nat) : ActivityRow :=
  { id := newActivityId
    submission_id := submission_id
    participant_name := ed.nome_participante
    event_name := ed.evento
    location := ed.local
    event_date := ed.data
    original_hours := ed.carga_horaria
    numeric_hours := some numeric_hours
    category_id := category_data.id
    calculated_hours := calculated_hours
    llm_reasoning := if llm_reasoning = "" then none else some llm_reasoning
    raw_text := if ed.raw_text.getD "" = "" then none else some (ed.raw_text.getD "")
    review_status := "pending_review" }

/-- Embeds `categorize_activity` (service lines 35-81): guard on `evento`, guard on
parseable numeric hours, then the LLM, `_calculate_hours`, and persistence. -/
def categorize_activity (catalog : List CategoryData) (llm : LLMCatResponse)
    (extracted_data : ExtractedData) (submission_id : Nat) (newActivityId : Nat) :
    CategorizeOutcome :=
  let evento := extracted_data.evento.getD ""
  let carga_horaria := extracted_data.carga_horaria.getD ""
  if evento = "" then
    { result := create_error_result "Missing evento information"
      llmInvoked := false, savedActivity := none }
  else
    match svcExtractNumericHours carga_horaria with
    | none =>
      { result := create_error_result "Could not extract numeric hours"
        llmInvoked := false, savedActivity := none }
    | some numeric_hours =>
      match categorize_with_llm catalog llm with
      | (none, _) =>
        { result := create_error_result "No matching category found by LLM"
          llmInvoked := true, savedActivity := none }
      | (some category_data, llm_reasoning) =>
        let calculated_hours := calculate_hours category_data numeric_hours extracted_data
        let activity := save_extracted_activity extracted_data category_data
          numeric_hours calculated_hours llm_reasoning submission_id newActivityId
        { result :=
            { success := true
              error := none
              category_id := some category_data.id
              calculated_hours := calculated_hours }
          llmInvoked := true
          savedActivity := some activity }

/-! ## Stage-2 worker: `_process_ocr_message`
(`src/consumers/certificate_ocr_consumer.py`, lines 144-213). -/

/-- The parsed reply of the extraction LLM call (`extract_fields`), an
oracle; `none` models an absent key. -/
structure LLMFields where
  nome_participante : Option String := none
  evento : Option String := none
  «local» : Option String := none
  data : Option String := none
  carga_horaria : Option String := none
  deriving Repr, DecidableEq

/-- A `certificate.ocr` message. -/
structure OcrMessage where
  submission_id : Nat
  ocr_text_id : Nat
  raw_text : String
  deriving Repr, DecidableEq

/-- A `certificate.metadata` message. -/
structure MetaMessage where
  submission_id : Nat
  metadata_id : Nat
  extracted_data : ExtractedData
  deriving Repr, DecidableEq

/-- ASCII single quote, to render Python f-strings verbatim. -/
def asciiQuote : String := String.singleton (Char.ofNat 39)

/-- The f-string of consumer line 192. -/
def mismatchMsg (extracted student : String) : String :=
  "Certificate participant " ++ asciiQuote ++ extracted ++ asciiQuote ++
    " does not match student " ++ asciiQuote ++ student ++ asciiQuote ++ " who submitted the file"

/-- Outcome of one `_process_ocr_message` call: the committed database after
the `with get_db_session()` block (list writes rolled back when an exception
escaped), the `certificate.metadata` messages published, and whether an
exception propagated out of the method. -/
structure OcrOutcome where
  db : DB
  published : List MetaMessage
  raised : Bool
  deriving Repr, DecidableEq

def process_ocr_message (db : DB) (msg : OcrMessage) (llm : LLMFields)
    (newMetadataId : Nat) : OcrOutcome :=
  match db.submissions.find? (fun s => s.id = msg.submission_id) with
  | none => { db := db, published := [], raised := false }
  | some submission =>
    -- line 162: update_status(session, submission_id, 'metadata_processing')
    let sdb := update_status db msg.submission_id "metadata_processing"
    -- line 175: create_metadata(...) — session-pending insert
    let metaRow : MetadataRow :=
      { id := newMetadataId
        submission_id := msg.submission_id
        participant_name := llm.nome_participante
        event_name := llm.evento
        location := llm.local
        event_date := llm.data
        original_hours := llm.carga_horaria
        numeric_hours := ocrExtractNumericHoursOpt llm.carga_horaria }
    let sdb := { sdb with metadataRows := sdb.metadataRows ++ [metaRow] }
    -- lines 188-189
    let extracted_participant := pyStrip (llm.nome_participante.getD "")
    let student_name :=
      match db.students.find? (fun st => st.id = submission.student_id) with
      | some st => pyStrip st.name
      | none => ""
    if validate_participant_name extracted_participant student_name then
      -- lines 201-205: publish certificate.metadata; then the with-block commits
      { db := sdb
        published :=
          [{ submission_id := msg.submission_id
             metadata_id := newMetadataId
             extracted_data :=
               { nome_participante := llm.nome_participante
                 evento := llm.evento
                 «local» := llm.local
                 data := llm.data
                 carga_horaria := llm.carga_horaria } }]
        raised := false }
    else
      -- line 195: update_status(..., 'failed', error_msg, update_processing_completed=True)
      if kwargsAccepted update_status_params consumerFailureKwargs then
        { db := update_status sdb msg.submission_id "failed"
            (some (mismatchMsg extracted_participant student_name))
          published := [], raised := false }
      else
        -- TypeError; the except handler (line 211) repeats the same unexpected
        -- keyword, raising TypeError again, which escapes the method;
        -- get_db_session rolls the session back (connection.py lines 43-46)
        { db := db, published := [], raised := true }

/-! ## Stage-3 worker: `_process_metadata_message`
(`src/consumers/certificate_metadata_consumer.py`, lines 74-127). -/

/-- Outcome of one `_process_metadata_message` call. -/
structure MetaOutcome where
  db : DB
  raised : Bool
  deriving Repr, DecidableEq

/-- Lines 96-102: fetch the submission's OCR text and attach it to the
extracted data under `raw_text`. -/
def attachRawText (db : DB) (msg : MetaMessage) : ExtractedData :=
  let raw_text :=
    match db.ocrTexts.find? (fun r => r.submission_id = msg.submission_id) with
    | some r => r.raw_text
    | none => ""
  { msg.extracted_data with raw_text := some raw_text }

/-- Apply the activity insert that `_save_extracted_activity` committed in its
own session; it survives whatever happens to the consumer's session. -/
def persistSaved (saved : Option ActivityRow) (db : DB) : DB :=
  match saved with
  | some a => { db with activities := db.activities ++ [a] }
  | none => db

def process_metadata_message (db : DB) (msg : MetaMessage) (llm : LLMCatResponse)
    (newActivityId : Nat) : MetaOutcome :=
  match db.submissions.find? (fun s => s.id = msg.submission_id) with
  | none => { db := db, raised := false }
  | some _ =>
    -- line 91: update_status(session, submission_id, 'categorization_processing')
    let sdb := update_status db msg.submission_id "categorization_processing"
    let ed := attachRawText db msg
    -- line 105: categorize_activity(extracted_data, submission_id);
    -- _get_categories_text reads the catalog through its own committed session
    let catOut := categorize_activity db.categories llm ed msg.submission_id newActivityId
    if catOut.result.success then
      -- line 111: update_status(..., 'pending_review', update_processing_completed=True)
      if kwargsAccepted update_status_params consumerSuccessKwargs then
        { db := persistSaved catOut.savedActivity
            (update_status sdb msg.submission_id "pending_review")
          raised := false }
      else
        -- TypeError; except handler (line 123) calls
        -- update_status(session, submission_id, 'failed', str(e)) — accepted —
        -- and the with-block then commits
        { db := persistSaved catOut.savedActivity
            (update_status sdb msg.submission_id "failed" (some kwargTypeErrorMsg))
          raised := false }
    else
      let error_message := catOut.result.error.getD "Unknown categorization error"
      -- line 119: update_status(..., 'failed', error_message, update_processing_completed=True)
      if kwargsAccepted update_status_params consumerFailureKwargs then
        { db := persistSaved catOut.savedActivity
            (update_status sdb msg.submission_id "failed" (some error_message))
          raised := false }
      else
        -- TypeError; except handler commits 'failed' with str(e) instead
        { db := persistSaved catOut.savedActivity
            (update_status sdb msg.submission_id "failed" (some kwargTypeErrorMsg))
          raised := false }

/-! ## Coordinator approve route
(`src/routes/coordinator.py`, `approve_submission`, lines 220-365). -/

/-- Result of the route: the HTTP status code of the JSON response and the
committed database (the session is rolled back on an early 4xx return). -/
structure ApproveOutcome where
  httpStatus : Nat
  db : DB
  deriving Repr, DecidableEq

/-- Truthiness of the `override_reason` JSON field (`not override_reason`). -/
def reasonTruthy (r : Option String) : Bool :=
  match r with
  | some s => s ≠ ""
  | none => false

/-- Lines 290-297 guard: a provided `final_hours` must not be negative. -/
def finalHoursInvalid (final_hours : Option Int) : Bool :=
  match final_hours with
  | some h => decide (h < 0)
  | none => false

/-- Lines 299-313 guard: a provided `final_category_id` must exist. -/
def finalCategoryMissing (catalog : List CategoryData) (final_category_id : Option Int) : Bool :=
  match final_category_id with
  | some cid => (catalog.find? (fun c => c.id = cid)).isNone
  | none => false

/-- Embeds `approve_submission`: body fields `final_hours`, `final_category_id`,
`override_reason` (already JSON-parsed; numbers are ints). Early returns keep
the database unchanged; the success path mutates the activity, the
submission and the student total and commits (line 343). -/
def approve_submission (db : DB) (submission_id : Nat)
    (final_hours final_category_id : Option Int) (override_reason : Option String)
    (now : Nat) : ApproveOutcome :=
  -- lines 260-264: overriding requires a reason
  if (final_hours.isSome || final_category_id.isSome) && !reasonTruthy override_reason then
    { httpStatus := 400, db := db }
  else
    match db.submissions.find? (fun s => s.id = submission_id) with
    | none => { httpStatus := 404, db := db }
    | some submission =>
      if submission.status ≠ "pending_review" then
        { httpStatus := 400, db := db }
      else
        match db.activities.find? (fun a => a.submission_id = submission_id) with
        | none => { httpStatus := 404, db := db }
        | some activity =>
          -- lines 290-297: final_hours must be a non-negative number
          if finalHoursInvalid final_hours then
            { httpStatus := 400, db := db }
          else
            -- lines 299-313: final_category_id must exist in the catalog
            if finalCategoryMissing db.categories final_category_id then
              { httpStatus := 400, db := db }
            else
              -- lines 315-341
              let final_hours_value := final_hours.getD activity.calculated_hours
              let final_category_value := final_category_id.getD activity.category_id
              let updated : ActivityRow :=
                { activity with
                  override_category_id := final_category_id
                  override_hours := final_hours
                  override_reasoning :=
                    if reasonTruthy override_reason then override_reason else none
                  final_category_id := some final_category_value
                  final_hours := some final_hours_value
                  review_status := "approved"
                  reviewed_at := some now
                  coordinator_id := some "system" }
              let db :=
                { db with
                  activities := db.activities.map fun a =>
                    if a.id = activity.id then updated else a }
              let db := update_status db submission_id "approved"
              -- lines 338-341: total is bumped only when the student exists
              -- and final_hours_value is truthy (non-zero)
              let db :=
                if final_hours_value ≠ 0 then
                  { db with
                    students := db.students.map fun st =>
                      if st.id = submission.student_id then
                        { st with
                          total_approved_hours := st.total_approved_hours + final_hours_value }
                      else st }
                else db
              { httpStatus := 200, db := db }

/-! ## Intake service and HTTP route
(`src/services/certificate_submission_service.py`, `submit_certificate`,
lines 34-162; `src/routes/certificate.py`, lines 81-93). -/

/-- The response dictionary keys the route and the claims read. -/
structure SubmitResponse where
  error : Option String := none
  submission_id : Option Nat := none
  existing_submission_id : Option Nat := none
  existing_submission_date : Option Nat := none
  status : Option String := none
  deriving Repr, DecidableEq

/-- Outcome of `submit_certificate`: the `(success, result)` pair, the
committed database, the object keys stored in S3 and the submission ids
published on `certificate.ingest`. -/
structure SubmitOutcome where
  success : Bool
  response : SubmitResponse
  db : DB
  uploads : List String := []
  publishes : List Nat := []
  deriving Repr, DecidableEq

/-- Embeds `get_student_for_certificate_submission` (student_service lines 195-221):
lookup by enrollment number, rejecting a student with a falsy name. -/
def get_student_for_certificate_submission (db : DB) (enrollment_number : String) :
    Option StudentRow :=
  match db.students.find? (fun st => st.enrollment_number = enrollment_number) with
  | none => none
  | some student => if student.name = "" then none else some student

/-- Splitter for Python `str.split('.')`: empty pieces are kept. -/
def splitOnDotAux : List Char → List Char → List (List Char)
  | [], acc => [acc.reverse]
  | c :: cs, acc =>
    if c = Char.ofNat 46 then acc.reverse :: splitOnDotAux cs []
    else splitOnDotAux cs (c :: acc)

/-- The S3 key built by `upload_file` (s3_service lines 87-89):
`filename.split('.')[-1] if '.' in filename else 'pdf'`. -/
def s3KeyFor (enrollment_number filename checksum : String) : String :=
  let ext :=
    if filename.toList.contains (Char.ofNat 46) then
      String.mk ((splitOnDotAux filename.toList []).getLastD [])
    else "pdf"
  "certificates/" ++ enrollment_number ++ "/" ++ checksum ++ "." ++ ext

/-- Embeds `create_submission` (submission repository lines 21-60): insert a
row with the given fields, `status='uploaded'` and the current timestamp,
returning the flushed row. -/
def create_submission (db : DB) (student_id : Nat)
    (original_filename s3_key file_checksum : String) (file_size : Nat)
    (mime_type : String) (newId now : Nat) : DB × SubmissionRow :=
  let submission : SubmissionRow :=
    { id := newId
      student_id := student_id
      original_filename := original_filename
      s3_key := s3_key
      file_checksum := file_checksum
      file_size := file_size
      mime_type := mime_type
      status := "uploaded"
      submitted_at := now }
  ({ db with submissions := db.submissions ++ [submission] }, submission)

/-- Embeds `submit_certificate`. External effects are oracles: `hash` abstracts
`hashlib.sha256(...).hexdigest()`, `s3ok` the success of `put_object`,
`kafkaok` the success of `publish_certificate_ingest`; `newId`/`now` stand
for the generated primary key and clock. -/
def submit_certificate (db : DB) (file_content : List Nat)
    (original_filename enrollment_number mime_type : String)
    (hash : List Nat → String) (s3ok kafkaok : Bool) (newId now : Nat) :
    SubmitOutcome :=
  let checksum := hash file_content
  match get_student_for_certificate_submission db enrollment_number with
  | none =>
    { success := false, response := { error := some "Student not found or invalid" }
      db := db }
  | some student =>
    -- lines 70-80: duplicate check on (student_id, checksum)
    match get_by_checksum db.submissions student.id checksum with
    | some duplicate_submission =>
      { success := false
        response :=
          { error := some "Duplicate file detected"
            existing_submission_id := some duplicate_submission.id
            existing_submission_date := some duplicate_submission.submitted_at }
        db := db }
    | none =>
      -- lines 82-93: upload to S3 before any DB row exists
      if !s3ok then
        { success := false, response := { error := some "Failed to upload file to storage" }
          db := db }
      else
        let s3_key := s3KeyFor enrollment_number original_filename checksum
        -- lines 95-110: insert with status 'uploaded', then 'queued'
        let inserted := create_submission db student.id original_filename s3_key
          checksum file_content.length mime_type newId now
        let db1 := update_status inserted.1 newId "queued"
        -- line 123: the transaction commits here; then Kafka
        if !kafkaok then
          let db2 := update_status db1 newId "failed"
            (some "Failed to publish to processing queue")
          { success := false
            response :=
              { error := some "Failed to queue file for processing"
                submission_id := some newId }
            db := db2
            uploads := [s3_key] }
        else
          { success := true
            response := { submission_id := some newId, status := some "queued" }
            db := db1
            uploads := [s3_key]
            publishes := [newId] }

/-- The HTTP status the route assigns to the service result
(routes/certificate.py lines 81-93): 201 on success, 409 on the duplicate
error, 500 when the error contains the queue-failure text, else 400. -/
def submit_route_status (success : Bool) (response : SubmitResponse) : Nat :=
  if success then 201
  else if response.error = some "Duplicate file detected" then 409
  else if decide ("Failed to queue file for processing".toList <:+:
      ((response.error.getD "").toList)) then 500
  else 400

/-! ## Declared uniqueness constraints of `certificate_submissions`
(`src/models/certificate_submission.py`, lines 14-25): the primary key on
`id`, and `file_checksum = Column(String(64), unique=True, ...)` — a global
single-column uniqueness; the model declares no composite
`(student_id, file_checksum)` constraint. -/

/-- A table state satisfies the model's declared constraints. -/
def submissionsSchemaConsistent (rows : List SubmissionRow) : Prop :=
  rows.Pairwise fun a b => a.id ≠ b.id ∧ a.file_checksum ≠ b.file_checksum

/-- The constraint as the specification words it (§3, §8): uniqueness of the
pair `(student_id, file_checksum)` only. -/
def specPairConstraint (rows : List SubmissionRow) : Prop :=
  rows.Pairwise fun a b =>
    a.id ≠ b.id ∧ (a.student_id = b.student_id → a.file_checksum ≠ b.file_checksum)

/-! ## Concrete scenarios used by counterexamples and code-bug evaluations -/

/-- Catalog row 3 of the happy-path scenario (§8 scenario 1): `ratio_hours`,
1 hour awarded per 1 hour, capped at 60. -/
def cursosCategory : CategoryData :=
  { id := 3, name := "Cursos", calculation_type := "ratio_hours"
    input_unit := "hours", input_quantity := 1, output_hours := 1, max_total_hours := 60 }

/-- A `fixed_per_semester` category whose flat award exceeds its cap. -/
def monitoriaCategory : CategoryData :=
  { id := 1, name := "Monitoria", calculation_type := "fixed_per_semester"
    hours_awarded := 100, input_unit := "semesters", max_total_hours := 60 }

/-- Database state entering stage 3 for the happy-path submission. -/
def anaDB : DB :=
  { students := [{ id := 7, enrollment_number := "2021001", name := "Ana Maria Silva" }]
    submissions := [{ id := 1, student_id := 7, status := "metadata_processing"
                      file_checksum := "aabb01" }]
    ocrTexts := [{ id := 4, submission_id := 1
                   raw_text := "certificamos que Ana Silva participou do curso X, 40 horas" }]
    categories := [cursosCategory] }

/-- The extracted fields of the happy-path certificate. -/
def anaExtracted : ExtractedData :=
  { nome_participante := some "Ana Silva", evento := some "X", «local» := some "IFCE"
    data := some "10/10/2024", carga_horaria := some "40 horas" }

def anaMetaMessage : MetaMessage :=
  { submission_id := 1, metadata_id := 5, extracted_data := anaExtracted }

def anaLLM : LLMCatResponse :=
  { category_id := some 3, reasoning := some "course with hour load" }

/-- The stage-3 worker run on the happy-path message. -/
def anaOutcome : MetaOutcome := process_metadata_message anaDB anaMetaMessage anaLLM 9

/-- Database state entering stage 2 for the name-mismatch scenario
(§8 scenario 3). -/
def joaoDB : DB :=
  { students := [{ id := 8, enrollment_number := "2021002", name := "Joao Pereira" }]
    submissions := [{ id := 2, student_id := 8, status := "ocr_processing"
                      file_checksum := "ccdd02" }] }

def joaoMessage : OcrMessage :=
  { submission_id := 2, ocr_text_id := 11, raw_text := "certificado de Carlos Lima, 20 horas" }

/-- LLM extraction naming a participant other than the submitting student. -/
def joaoLLM : LLMFields :=
  { nome_participante := some "Carlos Lima", evento := some "Curso Y"
    carga_horaria := some "20 horas" }

/-- The stage-2 worker run on the mismatching message. -/
def joaoOutcome : OcrOutcome := process_ocr_message joaoDB joaoMessage joaoLLM 12

/-- Review-queue state for the approval scenarios: one activity of 40
calculated hours in category 3 (cap 60), submission `pending_review`. -/
def reviewDB : DB :=
  { students := [{ id := 7, enrollment_number := "2021001", name := "Ana Maria Silva" }]
    submissions := [{ id := 1, student_id := 7, status := "pending_review"
                      file_checksum := "aabb01" }]
    activities := [{ id := 20, submission_id := 1, category_id := 3, calculated_hours := 40 }]
    categories := [cursosCategory] }

/-- Approval overriding the hours to 1000 — far above the cap of 60 — with a
reason supplied. -/
def overrideApproval : ApproveOutcome :=
  approve_submission reviewDB 1 (some 1000) none (some "adjusted per program policy") 99

/-- Approval without overrides, used as a witness. -/
def plainApproval : ApproveOutcome := approve_submission reviewDB 1 none none none 99

/-- Two submissions by different students carrying identical content. -/
def sharedChecksumRows : List SubmissionRow :=
  [{ id := 1, student_id := 1, file_checksum := "aa11" },
   { id := 2, student_id := 2, file_checksum := "aa11" }]

/-- Two submissions by the same student with distinct checksums. -/
def distinctChecksumRows : List SubmissionRow :=
  [{ id := 1, student_id := 1, file_checksum := "aa11" },
   { id := 2, student_id := 1, file_checksum := "bb22" }]

/-- A `fixed_per_activity` category whose flat award respects its cap. -/
def palestrasCategory : CategoryData :=
  { id := 2, name := "Palestras", calculation_type := "fixed_per_activity"
    hours_awarded := 30, input_unit := "activities", max_total_hours := 60 }

/-- The registered student of the intake fixtures. -/
def biaStudent : StudentRow :=
  { id := 5, enrollment_number := "2021009", name := "Bia Costa" }

/-- The prior submission of the duplicate-intake fixture. -/
def priorSubmission : SubmissionRow :=
  { id := 30, student_id := 5, file_checksum := "cafe01"
    status := "pending_review", submitted_at := 77 }

/-- The submission row of the missing-evento fixture. -/
def noEventoSubmission : SubmissionRow :=
  { id := 1, student_id := 7, status := "metadata_processing", file_checksum := "aabb01" }

/-- Intake fixture: one registered student, no prior submissions. -/
def intakeDB : DB :=
  { students := [{ id := 5, enrollment_number := "2021009", name := "Bia Costa" }] }

/-- A stand-in checksum oracle for witnesses. -/
def constHash : List Nat → String := fun _ => "cafe01"

/-- Stage-3 fixture whose message carries no `evento` at all. -/
def noEventoDB : DB :=
  { students := [{ id := 7, enrollment_number := "2021001", name := "Ana Maria Silva" }]
    submissions := [{ id := 1, student_id := 7, status := "metadata_processing"
                      file_checksum := "aabb01" }]
    categories := [cursosCategory] }

/-- Intake fixture with a prior submission whose checksum collides. -/
def intakeDupDB : DB :=
  { intakeDB with submissions := [priorSubmission] }

def noEventoMessage : MetaMessage :=
  { submission_id := 1, metadata_id := 5
    extracted_data := { nome_participante := some "Ana Silva", carga_horaria := some "40 horas" } }


/-! ## Helper lemmas -/

theorem find?_map_update {f : SubmissionRow → SubmissionRow} (hf : ∀ s, (f s).id = s.id)
    (l : List SubmissionRow) (sid : Nat) (sub : SubmissionRow)
    (h : l.find? (fun s => s.id = sid) = some sub) :
    (l.map fun s => if s.id = sid then f s else s).find? (fun s => s.id = sid) =
      some (f sub) := by
  induction l with
  | nil => simp at h
  | cons a l ih =>
    by_cases ha : a.id = sid
    · rw [List.find?_cons_of_pos _ (by simpa using ha)] at h
      cases h
      simp only [List.map_cons, if_pos ha]
      exact List.find?_cons_of_pos _ (by simp [hf, ha])
    · rw [List.find?_cons_of_neg _ (by simpa using ha)] at h
      simp only [List.map_cons, if_neg ha]
      rw [List.find?_cons_of_neg _ (by simpa using ha)]
      exact ih h

theorem update_status_find? (db : DB) (sid : Nat) (st : String) (em : Option String)
    (sub : SubmissionRow) (h : db.submissions.find? (fun s => s.id = sid) = some sub) :
    (update_status db sid st em).submissions.find? (fun s => s.id = sid) =
      some (applyStatus st em sub) :=
  find?_map_update (f := applyStatus st em) (fun _ => rfl) _ _ _ h

theorem digitRunsAux_head_acc (l : List Char) :
    ∀ acc : List Char, acc ≠ [] →
      (digitRunsAux l acc).head? =
        some (acc.reverse ++ l.takeWhile (fun c => c.isDigit)) := by
  induction l with
  | nil =>
    intro acc hacc
    simp [digitRunsAux, hacc]
  | cons c cs ih =>
    intro acc hacc
    by_cases hc : c.isDigit
    · rw [digitRunsAux, if_pos hc, ih (c :: acc) (by simp)]
      simp [List.takeWhile_cons, hc]
    · rw [digitRunsAux, if_neg hc, if_neg hacc]
      simp [List.takeWhile_cons, hc]

theorem digitRunsAux_head_nil (l : List Char) :
    (digitRunsAux l []).head? =
      (fun r => if r = [] then none else some r)
        ((l.dropWhile (fun c => !c.isDigit)).takeWhile (fun c => c.isDigit)) := by
  induction l with
  | nil => simp [digitRunsAux]
  | cons c cs ih =>
    by_cases hc : c.isDigit
    · rw [digitRunsAux, if_pos hc, digitRunsAux_head_acc cs [c] (by simp)]
      simp [List.dropWhile_cons, List.takeWhile_cons, hc]
    · rw [digitRunsAux, if_neg hc, if_pos rfl]
      rw [ih]
      simp [List.dropWhile_cons, hc]

theorem ocrExtractNumericHours_eq_spec (s : String) :
    ocrExtractNumericHours s = specNumericHours s := by
  unfold ocrExtractNumericHours specNumericHours pyFindallDigitRuns specFirstDigitRun
  have h := digitRunsAux_head_nil s.toList
  by_cases hs : s = ""
  · subst hs; simp [digitRunsAux]
  · simp only [hs, if_false, if_neg]
    rcases hr : digitRunsAux s.toList [] with _ | ⟨r, rs⟩
    · rw [hr] at h
      simp only [List.head?_nil] at h
      split at h
      · simp_all
      · simp_all
    · rw [hr] at h
      simp only [List.head?_cons] at h
      split at h
      · simp_all
      · simp_all

theorem commonNameParts_toFinset (a b : String) :
    (commonNameParts a b).toFinset =
      (pyTokens a).toFinset ∩ (pyTokens b).toFinset := by
  ext t
  simp [commonNameParts, List.mem_filter, List.mem_dedup]

theorem commonNameParts_nodup (a b : String) : (commonNameParts a b).Nodup :=
  (List.nodup_dedup _).filter _

theorem commonNameParts_card (a b : String) :
    ((pyTokens a).toFinset ∩ (pyTokens b).toFinset).card =
      (commonNameParts a b).length := by
  rw [← commonNameParts_toFinset, List.card_toFinset,
    List.dedup_eq_self.mpr (commonNameParts_nodup a b)]

theorem categorize_guard (catalog : List CategoryData) (llm : LLMCatResponse)
    (ed : ExtractedData) (sid aid : Nat)
    (h : ed.evento.getD "" = "" ∨
      svcExtractNumericHours (ed.carga_horaria.getD "") = none) :
    (categorize_activity catalog llm ed sid aid).result.success = false ∧
      (categorize_activity catalog llm ed sid aid).result.calculated_hours = 0 ∧
      (categorize_activity catalog llm ed sid aid).llmInvoked = false ∧
      (categorize_activity catalog llm ed sid aid).savedActivity = none := by
  unfold categorize_activity
  by_cases hev : ed.evento.getD "" = ""
  · simp [hev, create_error_result]
  · rcases h with h | h
    · exact absurd h hev
    · simp [hev, h, create_error_result]

theorem attachRawText_evento (db : DB) (msg : MetaMessage) :
    (attachRawText db msg).evento = msg.extracted_data.evento := rfl

theorem attachRawText_carga (db : DB) (msg : MetaMessage) :
    (attachRawText db msg).carga_horaria = msg.extracted_data.carga_horaria := rfl

theorem create_submission_find? (db : DB) (student_id : Nat)
    (ofn key ck : String) (fs : Nat) (mt : String) (newId now : Nat)
    (hfresh : ∀ s ∈ db.submissions, s.id ≠ newId) :
    (create_submission db student_id ofn key ck fs mt newId now).1.submissions.find?
        (fun s => s.id = newId) =
      some (create_submission db student_id ofn key ck fs mt newId now).2 := by
  unfold create_submission
  dsimp only
  rw [List.find?_append]
  have hnone : db.submissions.find? (fun s => decide (s.id = newId)) = none :=
    List.find?_eq_none.mpr (fun x hx => by simpa using hfresh x hx)
  rw [hnone]
  simp

/-! ## Claim theorems -/

/-- C1 (code_bug). The claim states that when categorization succeeds the
metadata stage worker transitions the submission to `pending_review` and sets
`processing_completed_at` to a non-null timestamp. On the happy-path input the
code persists the `ExtractedActivity` with `review_status = pending_review`
(categorization succeeded), but the `pending_review` status update passes the
keyword `update_processing_completed=True` to an `update_status` that does not
declare it; the resulting TypeError is caught and the submission is committed
as `failed` with the TypeError text, `processing_completed_at` still NULL. -/
theorem c1_metadata_success_marks_submission_failed :
    anaOutcome.db.activities.map
        (fun a => (a.submission_id, a.review_status, a.category_id, a.calculated_hours)) =
      [(1, "pending_review", 3, 40)] ∧
    (anaOutcome.db.submissions.find? (fun s => s.id = 1)).map
        (fun s => (s.status, s.error_message, s.processing_completed_at)) =
      some ("failed", some kwargTypeErrorMsg, none) ∧
    anaOutcome.raised = false := by
  decide

/-- C2 (counterexample). The claim states that `_calculate_hours` never
exceeds `max_total_hours` in any branch, and that the `fixed_*` branches
return `hours_awarded`. The two `fixed_*` branches do not clamp: a category
with `hours_awarded = 100` and `max_total_hours = 60` yields 100 > 60. -/
theorem c2_fixed_award_exceeds_cap_counterexample :
    calculate_hours monitoriaCategory 10 {} = 100 ∧
      ¬ calculate_hours monitoriaCategory 10 {} ≤ monitoriaCategory.max_total_hours := by
  decide

/-- C2 (amended). For every category whose `max_total_hours` is non-negative
and whose `hours_awarded` does not exceed `max_total_hours`, the computed
hours stay at or below `max_total_hours` in every branch, and both `fixed_*`
branches return exactly `hours_awarded`; the three `ratio_*` branches clamp
unconditionally, so only the fixed branches need the extra premise. -/
theorem c2_calculate_hours_clamped_amended (cd : CategoryData) (numeric_hours : Nat)
    (ed : ExtractedData)
    (hmax : 0 ≤ cd.max_total_hours) (hfix : cd.hours_awarded ≤ cd.max_total_hours) :
    calculate_hours cd numeric_hours ed ≤ cd.max_total_hours ∧
      ((cd.calculation_type = "fixed_per_semester" ∨
          cd.calculation_type = "fixed_per_activity") →
        calculate_hours cd numeric_hours ed = cd.hours_awarded) := by
  unfold calculate_hours
  split_ifs with h1 h2 h3 h4 h5
  · exact ⟨hfix, fun _ => rfl⟩
  · exact ⟨hfix, fun _ => rfl⟩
  · exact ⟨min_le_right _ _, fun hc => by rcases hc with hc | hc <;> simp_all⟩
  · refine ⟨?_, fun hc => by rcases hc with hc | hc <;> simp_all⟩
    rcases extract_days_from_data ed with _ | d
    · exact min_le_right _ _
    · by_cases hd : d = 0 <;> simp [hd, min_le_right]
  · refine ⟨?_, fun hc => by rcases hc with hc | hc <;> simp_all⟩
    rcases extract_pages_from_data ed with _ | p
    · exact min_le_right _ _
    · by_cases hp : p = 0 <;> simp [hp, min_le_right]
  · exact ⟨hmax, fun hc => by rcases hc with hc | hc <;> simp_all⟩

/-- Witness for C2 (amended) at two concrete catalog rows: a ratio category
and a compliant fixed category. -/
theorem c2_calculate_hours_clamped_witness :
    (calculate_hours cursosCategory 200 {} ≤ cursosCategory.max_total_hours) ∧
      (calculate_hours palestrasCategory 5 {} ≤ palestrasCategory.max_total_hours ∧
        calculate_hours palestrasCategory 5 {} = palestrasCategory.hours_awarded) :=
  ⟨(c2_calculate_hours_clamped_amended cursosCategory 200 {} (by decide) (by decide)).1,
    (c2_calculate_hours_clamped_amended palestrasCategory 5 {} (by decide) (by decide)).1,
    (c2_calculate_hours_clamped_amended palestrasCategory 5 {} (by decide) (by decide)).2
      (Or.inr rfl)⟩

/-- C3 (code_bug). The claim states that on a participant-name mismatch the
OCR stage worker leaves the submission `failed` with the mismatch message and
a non-null `processing_completed_at`, retains the metadata row, and publishes
nothing. On the mismatch input the failure-path `update_status` call passes
the undeclared keyword `update_processing_completed=True`; the TypeError is
re-raised by the except handler, the session rolls back, and the committed
state is completely unchanged: the status stays `ocr_processing`, no error
message, no timestamp, and no metadata row. Only the absence of a
`certificate.metadata` publish matches the claim. -/
theorem c3_ocr_name_mismatch_rolls_back :
    joaoOutcome.raised = true ∧
    joaoOutcome.db = joaoDB ∧
    joaoOutcome.published = [] ∧
    joaoOutcome.db.metadataRows = [] ∧
    (joaoOutcome.db.submissions.find? (fun s => s.id = 2)).map
        (fun s => (s.status, s.error_message, s.processing_completed_at)) =
      some ("ocr_processing", none, none) := by
  decide

/-- C4 (counterexample). The claim states that after approval `final_hours`
never exceeds the `max_total_hours` of the final category. The route checks
only non-negativity and category existence: overriding the hours to 1000
against a category capped at 60 succeeds with HTTP 200 and stores
`final_hours = 1000`. -/
theorem c4_approve_override_exceeds_cap_counterexample :
    overrideApproval.httpStatus = 200 ∧
    overrideApproval.db.activities.map
        (fun a => (a.review_status, a.final_hours, a.final_category_id)) =
      [("approved", some 1000, some 3)] ∧
    (reviewDB.categories.find? (fun c => c.id = 3)).map (fun c => c.max_total_hours) =
      some 60 ∧
    ¬ (1000 : Int) ≤ 60 := by
  decide

/-- C4 (amended). When the approve route returns HTTP 200 — with or without
overrides — the approved activity carries non-null `final_category_id` and
`final_hours`, and `final_hours` is non-negative provided the stored
`calculated_hours` were non-negative (an overridden value is checked by the
route itself); no comparison against the final category's `max_total_hours`
is performed. -/
theorem c4_approve_final_fields_amended (db : DB) (sid : Nat) (fh fc : Option Int)
    (reason : Option String) (now : Nat)
    (hcalc : ∀ a ∈ db.activities, 0 ≤ a.calculated_hours)
    (h200 : (approve_submission db sid fh fc reason now).httpStatus = 200) :
    ∃ a ∈ (approve_submission db sid fh fc reason now).db.activities,
      a.submission_id = sid ∧ a.review_status = "approved" ∧
        a.final_category_id.isSome = true ∧
        ∃ v, a.final_hours = some v ∧ 0 ≤ v := by
  unfold approve_submission at h200 ⊢
  by_cases hA : ((fh.isSome || fc.isSome) && !reasonTruthy reason) = true
  · rw [if_pos hA] at h200
    simp at h200
  rw [if_neg hA] at h200 ⊢
  rcases hfind : db.submissions.find? (fun s => s.id = sid) with _ | submission
  · rw [hfind] at h200
    simp at h200
  rw [hfind] at h200 ⊢
  dsimp only at h200 ⊢
  by_cases hst : submission.status ≠ "pending_review"
  · rw [if_pos hst] at h200
    simp at h200
  rw [if_neg hst] at h200 ⊢
  rcases hact : db.activities.find? (fun a => a.submission_id = sid) with _ | activity
  · rw [hact] at h200
    simp at h200
  rw [hact] at h200 ⊢
  dsimp only at h200 ⊢
  by_cases hfh : finalHoursInvalid fh = true
  · rw [if_pos hfh] at h200
    simp at h200
  rw [if_neg hfh] at h200 ⊢
  by_cases hfc : finalCategoryMissing db.categories fc = true
  · rw [if_pos hfc] at h200
    simp at h200
  rw [if_neg hfc] at h200 ⊢
  have hmem : activity ∈ db.activities := List.mem_of_find?_eq_some hact
  have hps := List.find?_some hact
  have hsid : activity.submission_id = sid := by simpa using hps
  have hv : 0 ≤ fh.getD activity.calculated_hours := by
    rcases fh with _ | h
    · exact hcalc activity hmem
    · simp only [Option.getD_some]
      unfold finalHoursInvalid at hfh
      simp only [decide_eq_true_eq] at hfh
      omega
  by_cases hnz : fh.getD activity.calculated_hours ≠ 0
  · rw [if_pos hnz]
    dsimp only [update_status]
    refine ⟨_, List.mem_map_of_mem _ hmem, ?_⟩
    rw [if_pos rfl]
    exact ⟨hsid, rfl, rfl, fh.getD activity.calculated_hours, rfl, hv⟩
  · rw [if_neg hnz]
    dsimp only [update_status]
    refine ⟨_, List.mem_map_of_mem _ hmem, ?_⟩
    rw [if_pos rfl]
    exact ⟨hsid, rfl, rfl, fh.getD activity.calculated_hours, rfl, hv⟩

/-- Witness for C4 (amended): the no-override approval of the review fixture
succeeds with HTTP 200 and yields an approved activity with non-null final
fields. -/
theorem c4_approve_final_fields_witness :
    ∃ a ∈ (approve_submission reviewDB 1 none none none 99).db.activities,
      a.submission_id = 1 ∧ a.review_status = "approved" ∧
        a.final_category_id.isSome = true ∧
        ∃ v, a.final_hours = some v ∧ 0 ≤ v :=
  c4_approve_final_fields_amended reviewDB 1 none none none 99
    (by decide) (by decide)

/-- C5 (counterexample). The claim states the uniqueness constraint is on the
pair `(student_id, file_checksum)`, so two different students may carry the
same checksum. The model declares `file_checksum` globally unique
(`unique=True` on the column, no composite constraint): a table holding the
same checksum for two different students satisfies the pair constraint the
claim describes but violates the declared schema. -/
theorem c5_checksum_constraint_counterexample :
    specPairConstraint sharedChecksumRows ∧
      ¬ submissionsSchemaConsistent sharedChecksumRows := by
  constructor
  · unfold specPairConstraint sharedChecksumRows
    decide
  · unfold submissionsSchemaConsistent sharedChecksumRows
    decide

/-- C5 (amended). The declared uniqueness is on `file_checksum` alone: in any
schema-consistent table every two distinct submissions have distinct
checksums — in particular two submissions by the same student do — and the
same content from two different students is likewise rejected. -/
theorem c5_checksum_unique_amended (rows : List SubmissionRow)
    (h : submissionsSchemaConsistent rows) :
    ∀ a ∈ rows, ∀ b ∈ rows, a ≠ b →
      a.file_checksum ≠ b.file_checksum ∧
        (a.student_id = b.student_id → a.file_checksum ≠ b.file_checksum) := by
  have hsymm : Symmetric
      (fun a b : SubmissionRow => a.id ≠ b.id ∧ a.file_checksum ≠ b.file_checksum) := by
    rintro x y ⟨h1, h2⟩
    exact ⟨h1.symm, h2.symm⟩
  intro a ha b hb hne
  have hr := (List.Pairwise.forall hsymm h) ha hb hne
  exact ⟨hr.2, fun _ => hr.2⟩

/-- Witness for C5 (amended) at a concrete two-row table of one student. -/
theorem c5_checksum_unique_witness :
    ({ id := 1, student_id := 1, file_checksum := "aa11" } : SubmissionRow).file_checksum ≠
      ({ id := 2, student_id := 1, file_checksum := "bb22" } : SubmissionRow).file_checksum :=
  (c5_checksum_unique_amended distinctChecksumRows
    (by unfold submissionsSchemaConsistent distinctChecksumRows; decide)
    _ (by unfold distinctChecksumRows; decide)
    _ (by unfold distinctChecksumRows; decide)
    (by decide)).1

/-- C6 (confirmed). When the intake transaction has committed (student found,
no duplicate, upload succeeded) and the `certificate.ingest` publish fails,
`submit_certificate` returns failure — never success — with the error
`Failed to queue file for processing` and the submission id; the row is
updated to status `failed` with error message
`Failed to publish to processing queue`; and the route maps the result to
HTTP 500. -/
theorem c6_queue_failure_marks_failed (db : DB) (file_content : List Nat)
    (original_filename enrollment_number mime_type : String)
    (hash : List Nat → String) (newId now : Nat) (student : StudentRow)
    (hstud : get_student_for_certificate_submission db enrollment_number = some student)
    (hdup : get_by_checksum db.submissions student.id (hash file_content) = none)
    (hfresh : ∀ s ∈ db.submissions, s.id ≠ newId) :
    (submit_certificate db file_content original_filename enrollment_number mime_type
        hash true false newId now).success = false ∧
    (submit_certificate db file_content original_filename enrollment_number mime_type
        hash true false newId now).response.error =
      some "Failed to queue file for processing" ∧
    (submit_certificate db file_content original_filename enrollment_number mime_type
        hash true false newId now).response.submission_id = some newId ∧
    ((submit_certificate db file_content original_filename enrollment_number mime_type
          hash true false newId now).db.submissions.find? (fun s => s.id = newId)).map
        (fun s => (s.status, s.error_message)) =
      some ("failed", some "Failed to publish to processing queue") ∧
    submit_route_status
      (submit_certificate db file_content original_filename enrollment_number mime_type
        hash true false newId now).success
      (submit_certificate db file_content original_filename enrollment_number mime_type
        hash true false newId now).response = 500 := by
  have hred : submit_certificate db file_content original_filename enrollment_number
      mime_type hash true false newId now =
      { success := false
        response :=
          { error := some "Failed to queue file for processing"
            submission_id := some newId }
        db := update_status
          (update_status
            (create_submission db student.id original_filename
              (s3KeyFor enrollment_number original_filename (hash file_content))
              (hash file_content) file_content.length mime_type newId now).1
            newId "queued")
          newId "failed" (some "Failed to publish to processing queue")
        uploads := [s3KeyFor enrollment_number original_filename (hash file_content)]
        publishes := [] } := by
    unfold submit_certificate
    rw [hstud]
    dsimp only
    rw [hdup]
    rfl
  rw [hred]
  refine ⟨rfl, rfl, rfl, ?_, rfl⟩
  have h0 := create_submission_find? db student.id original_filename
    (s3KeyFor enrollment_number original_filename (hash file_content))
    (hash file_content) file_content.length mime_type newId now hfresh
  have h1 := update_status_find? _ newId "queued" none _ h0
  have h2 := update_status_find? _ newId "failed"
    (some "Failed to publish to processing queue") _ h1
  rw [h2]
  rfl

/-- Witness for C6 at the concrete intake fixture. -/
theorem c6_queue_failure_witness :
    (submit_certificate intakeDB [1, 2, 3] "cert.pdf" "2021009" "application/pdf"
        constHash true false 31 100).success = false ∧
    (submit_certificate intakeDB [1, 2, 3] "cert.pdf" "2021009" "application/pdf"
        constHash true false 31 100).response.error =
      some "Failed to queue file for processing" ∧
    (submit_certificate intakeDB [1, 2, 3] "cert.pdf" "2021009" "application/pdf"
        constHash true false 31 100).response.submission_id = some 31 ∧
    ((submit_certificate intakeDB [1, 2, 3] "cert.pdf" "2021009" "application/pdf"
          constHash true false 31 100).db.submissions.find? (fun s => s.id = 31)).map
        (fun s => (s.status, s.error_message)) =
      some ("failed", some "Failed to publish to processing queue") ∧
    submit_route_status
      (submit_certificate intakeDB [1, 2, 3] "cert.pdf" "2021009" "application/pdf"
        constHash true false 31 100).success
      (submit_certificate intakeDB [1, 2, 3] "cert.pdf" "2021009" "application/pdf"
        constHash true false 31 100).response = 500 :=
  c6_queue_failure_marks_failed intakeDB [1, 2, 3] "cert.pdf" "2021009"
    "application/pdf" constHash 31 100 biaStudent (by decide) (by decide) (by decide)

/-- C7 (confirmed). For every student and byte string whose checksum equals
the checksum of one of that student's existing submissions,
`submit_certificate` fails with the duplicate-file error carrying the prior
submission's id and `submitted_at`; it creates no row, stores nothing,
publishes nothing, and leaves the whole database — including every student's
`total_approved_hours` — unchanged; the route maps the result to HTTP 409. -/
theorem c7_duplicate_submission_rejected (db : DB) (file_content : List Nat)
    (original_filename enrollment_number mime_type : String)
    (hash : List Nat → String) (s3ok kafkaok : Bool) (newId now : Nat)
    (student : StudentRow) (dup : SubmissionRow)
    (hstud : get_student_for_certificate_submission db enrollment_number = some student)
    (hdup : get_by_checksum db.submissions student.id (hash file_content) = some dup) :
    (submit_certificate db file_content original_filename enrollment_number mime_type
        hash s3ok kafkaok newId now).success = false ∧
    (submit_certificate db file_content original_filename enrollment_number mime_type
        hash s3ok kafkaok newId now).response.error = some "Duplicate file detected" ∧
    (submit_certificate db file_content original_filename enrollment_number mime_type
        hash s3ok kafkaok newId now).response.existing_submission_id = some dup.id ∧
    (submit_certificate db file_content original_filename enrollment_number mime_type
        hash s3ok kafkaok newId now).response.existing_submission_date =
      some dup.submitted_at ∧
    (submit_certificate db file_content original_filename enrollment_number mime_type
        hash s3ok kafkaok newId now).db = db ∧
    (submit_certificate db file_content original_filename enrollment_number mime_type
        hash s3ok kafkaok newId now).uploads = [] ∧
    (submit_certificate db file_content original_filename enrollment_number mime_type
        hash s3ok kafkaok newId now).publishes = [] ∧
    (submit_certificate db file_content original_filename enrollment_number mime_type
        hash s3ok kafkaok newId now).db.students = db.students ∧
    submit_route_status
      (submit_certificate db file_content original_filename enrollment_number mime_type
        hash s3ok kafkaok newId now).success
      (submit_certificate db file_content original_filename enrollment_number mime_type
        hash s3ok kafkaok newId now).response = 409 := by
  unfold submit_certificate
  rw [hstud]
  dsimp only
  rw [hdup]
  exact ⟨rfl, rfl, rfl, rfl, rfl, rfl, rfl, rfl, rfl⟩

/-- Witness for C7 at the concrete duplicate fixture: re-submitting the bytes
whose checksum matches the stored submission 30. -/
theorem c7_duplicate_submission_witness :
    (submit_certificate intakeDupDB [1, 2, 3] "cert.pdf" "2021009" "application/pdf"
        constHash true true 31 100).success = false ∧
    (submit_certificate intakeDupDB [1, 2, 3] "cert.pdf" "2021009" "application/pdf"
        constHash true true 31 100).response.error = some "Duplicate file detected" ∧
    (submit_certificate intakeDupDB [1, 2, 3] "cert.pdf" "2021009" "application/pdf"
        constHash true true 31 100).response.existing_submission_id =
      some priorSubmission.id ∧
    (submit_certificate intakeDupDB [1, 2, 3] "cert.pdf" "2021009" "application/pdf"
        constHash true true 31 100).response.existing_submission_date =
      some priorSubmission.submitted_at ∧
    (submit_certificate intakeDupDB [1, 2, 3] "cert.pdf" "2021009" "application/pdf"
        constHash true true 31 100).db = intakeDupDB ∧
    (submit_certificate intakeDupDB [1, 2, 3] "cert.pdf" "2021009" "application/pdf"
        constHash true true 31 100).uploads = [] ∧
    (submit_certificate intakeDupDB [1, 2, 3] "cert.pdf" "2021009" "application/pdf"
        constHash true true 31 100).publishes = [] ∧
    (submit_certificate intakeDupDB [1, 2, 3] "cert.pdf" "2021009" "application/pdf"
        constHash true true 31 100).db.students = intakeDupDB.students ∧
    submit_route_status
      (submit_certificate intakeDupDB [1, 2, 3] "cert.pdf" "2021009" "application/pdf"
        constHash true true 31 100).success
      (submit_certificate intakeDupDB [1, 2, 3] "cert.pdf" "2021009" "application/pdf"
        constHash true true 31 100).response = 409 :=
  c7_duplicate_submission_rejected intakeDupDB [1, 2, 3] "cert.pdf" "2021009"
    "application/pdf" constHash true true 31 100 biaStudent priorSubmission
    (by decide) (by decide)

/-- C8 (confirmed). For all name strings, `_validate_participant_name`
returns True exactly when both inputs are non-empty and, after normalization
(lower-cased, punctuation removed, whitespace collapsed and trimmed), the
normalized strings are equal, or the token sets intersect in at least two
tokens, or they intersect in exactly one token of length greater than 3;
an empty or missing input yields False. -/
theorem c8_validate_participant_name_spec (e s : String) :
    validate_participant_name e s = true ↔ specNameMatch e s := by
  unfold specNameMatch
  rw [commonNameParts_card]
  have hmem : ∀ t : String,
      t ∈ (pyTokens (normalize_name e)).toFinset ∩ (pyTokens (normalize_name s)).toFinset ↔
        t ∈ commonNameParts (normalize_name e) (normalize_name s) := by
    intro t
    rw [← commonNameParts_toFinset]
    exact List.mem_toFinset
  by_cases he : e = ""
  · simp [validate_participant_name, he]
  by_cases hs : s = ""
  · simp [validate_participant_name, he, hs]
  simp only [validate_participant_name]
  rw [if_neg (by simp [he, hs])]
  constructor
  · intro h
    refine ⟨he, hs, ?_⟩
    split_ifs at h with heq h2 h1
    · exact Or.inl heq
    · exact Or.inr (Or.inl h2)
    · rw [List.any_eq_true] at h
      obtain ⟨t, ht, hlen⟩ := h
      exact Or.inr (Or.inr ⟨h1, t, (hmem t).mpr ht, of_decide_eq_true hlen⟩)
  · rintro ⟨-, -, hor⟩
    split_ifs with heq h2 h1
    · rfl
    · rfl
    · rcases hor with h | h | ⟨-, t, ht, hlen⟩
      · exact absurd h heq
      · exact absurd h h2
      · rw [List.any_eq_true]
        exact ⟨t, (hmem t).mp ht, decide_eq_true hlen⟩
    · rcases hor with h | h | ⟨hc, -⟩
      · exact absurd h heq
      · exact absurd h h2
      · exact absurd hc h1

/-- C9 (confirmed). The stage-2 numeric-hours parser returns the decimal
value of the first contiguous run of ASCII digits, and null when the string
is empty, missing, or contains no digit; in particular the spec's boundary
examples hold. -/
theorem c9_numeric_hours_first_digit_run :
    (∀ hoursText : String, ocrExtractNumericHours hoursText = specNumericHours hoursText) ∧
    ocrExtractNumericHoursOpt none = none ∧
    ocrExtractNumericHours "40 horas" = some 40 ∧
    ocrExtractNumericHours "40h" = some 40 ∧
    ocrExtractNumericHours "40hr" = some 40 ∧
    ocrExtractNumericHours "" = none ∧
    ocrExtractNumericHours "nd" = none := by
  refine ⟨ocrExtractNumericHours_eq_spec, rfl, ?_, ?_, ?_, rfl, ?_⟩ <;> decide

/-- C10 (confirmed). Whenever the extracted data lacks an `evento` or its
`carga_horaria` yields no hours under the stage-3 pattern parser,
`categorize_activity` returns an error result (`success = False`,
`calculated_hours = 0`) without invoking the LLM and without persisting any
`ExtractedActivity` — whatever the catalog, so also for categories whose
calculation type would not use hours — and the metadata stage worker ends
with the submission marked `failed` and the activity table unchanged. -/
theorem c10_missing_fields_fail_categorization (db : DB) (msg : MetaMessage)
    (llm : LLMCatResponse) (newActivityId : Nat) (sub : SubmissionRow)
    (hsub : db.submissions.find? (fun s => s.id = msg.submission_id) = some sub)
    (hguard : msg.extracted_data.evento.getD "" = "" ∨
      svcExtractNumericHours (msg.extracted_data.carga_horaria.getD "") = none) :
    (categorize_activity db.categories llm (attachRawText db msg)
        msg.submission_id newActivityId).result.success = false ∧
    (categorize_activity db.categories llm (attachRawText db msg)
        msg.submission_id newActivityId).result.calculated_hours = 0 ∧
    (categorize_activity db.categories llm (attachRawText db msg)
        msg.submission_id newActivityId).llmInvoked = false ∧
    (categorize_activity db.categories llm (attachRawText db msg)
        msg.submission_id newActivityId).savedActivity = none ∧
    (process_metadata_message db msg llm newActivityId).db.activities = db.activities ∧
    ((process_metadata_message db msg llm newActivityId).db.submissions.find?
        (fun s => s.id = msg.submission_id)).map (fun s => s.status) = some "failed" := by
  have hg : (attachRawText db msg).evento.getD "" = "" ∨
      svcExtractNumericHours ((attachRawText db msg).carga_horaria.getD "") = none := by
    rw [attachRawText_evento, attachRawText_carga]
    exact hguard
  obtain ⟨hs1, hs2, hs3, hs4⟩ := categorize_guard db.categories llm (attachRawText db msg)
    msg.submission_id newActivityId hg
  have hk : kwargsAccepted update_status_params consumerFailureKwargs = false := by decide
  refine ⟨hs1, hs2, hs3, hs4, ?_, ?_⟩
  · unfold process_metadata_message
    rw [hsub]
    simp only [hs1, hs4, hk, Bool.false_eq_true, if_false, persistSaved, update_status]
  · unfold process_metadata_message
    rw [hsub]
    simp only [hs1, hs4, hk, Bool.false_eq_true, if_false, persistSaved]
    have h1 := update_status_find? db msg.submission_id "categorization_processing" none sub hsub
    have h2 := update_status_find?
      (update_status db msg.submission_id "categorization_processing" none)
      msg.submission_id "failed" (some kwargTypeErrorMsg) _ h1
    rw [h2]
    simp [applyStatus]

/-- Witness for C10 at the missing-evento fixture. -/
theorem c10_missing_fields_witness :
    (categorize_activity noEventoDB.categories { category_id := some 3 }
        (attachRawText noEventoDB noEventoMessage) 1 9).result.success = false ∧
    (categorize_activity noEventoDB.categories { category_id := some 3 }
        (attachRawText noEventoDB noEventoMessage) 1 9).result.calculated_hours = 0 ∧
    (categorize_activity noEventoDB.categories { category_id := some 3 }
        (attachRawText noEventoDB noEventoMessage) 1 9).llmInvoked = false ∧
    (categorize_activity noEventoDB.categories { category_id := some 3 }
        (attachRawText noEventoDB noEventoMessage) 1 9).savedActivity = none ∧
    (process_metadata_message noEventoDB noEventoMessage { category_id := some 3 } 9).db.activities =
      noEventoDB.activities ∧
    ((process_metadata_message noEventoDB noEventoMessage
          { category_id := some 3 } 9).db.submissions.find?
        (fun s => s.id = noEventoMessage.submission_id)).map (fun s => s.status) =
      some "failed" :=
  c10_missing_fields_fail_categorization noEventoDB noEventoMessage
    { category_id := some 3 } 9 noEventoSubmission (by decide) (Or.inl rfl)
